import Mathlib

/-!
Verification of the anydo_api `User` resource model (`anydo_api/user.py`).

The embedding models the Python runtime values the code manipulates as a JSON-like
type `Val`, a `User` object as a structure mirroring the instance `__dict__`
(`data_dict`, `is_dirty`, lazily created collection caches, and any other instance
attributes), and each network-calling method as a pure function that takes the
transport's scripted response as an argument and returns the list of requests it
issued together with its result (`Except ApiError _` for methods that can raise).
-/

deriving instance DecidableEq for Except

namespace Anydo

/-- A Python/JSON value as manipulated by the code: JSON scalars; arrays encoded by
`vnil`/`vcons`; objects encoded by `dnil`/`dcons`; and `obj tag` standing for a
non-JSON Python object (e.g. the session handle). The cons encodings keep the type
a plain recursive inductive so that decidable equality is derivable. -/
inductive Val where
  | null
  | bool (b : Bool)
  | int (n : Int)
  | str (s : String)
  | vnil
  | vcons (hd tl : Val)
  | dnil
  | dcons (k : String) (v tl : Val)
  | obj (tag : String)
  deriving DecidableEq, Repr

/-- Build an encoded JSON array from a Lean list of values. -/
def Val.ofList : List Val → Val
  | [] => .vnil
  | v :: vs => .vcons v (Val.ofList vs)

/-- Python truthiness: `None`, `False`, `0`, `""`, `[]`, `{}` are falsy. -/
def Val.truthy : Val → Bool
  | .null => false
  | .bool b => b
  | .int n => n != 0
  | .str s => s != ""
  | .vnil => false
  | .vcons _ _ => true
  | .dnil => false
  | .dcons _ _ _ => true
  | .obj _ => true

/-- Lookup of a key in an encoded JSON object (`v[k]` on a parsed body). -/
def Val.dictGet : Val → String → Option Val
  | .dcons k' v tl, k => if k' = k then some v else Val.dictGet tl k
  | _, _ => none

/-- Whether a value is a JSON object (a Python dict after parsing). -/
def Val.isDict : Val → Bool
  | .dnil => true
  | .dcons _ _ _ => true
  | _ => false

/-- A Python dict with string keys (keys unique in any state the code builds). -/
abbrev Dict := List (String × Val)

/-- Dict lookup (`d[k]` / `k in d`). -/
def dget (d : Dict) (k : String) : Option Val :=
  match d with
  | [] => none
  | (k', v) :: rest => if k' = k then some v else dget rest k

/-- Dict update of an existing key (`d[k] = v`); leaves other keys untouched. -/
def dset (d : Dict) (k : String) (v : Val) : Dict :=
  match d with
  | [] => []
  | (k', v') :: rest => if k' = k then (k', v) :: rest else (k', v') :: dset rest k v

example : dget [("a", .int 1), ("b", .int 2)] "b" = some (.int 2) := by decide
example : dset [("a", .int 1), ("b", .int 2)] "a" (.int 7)
    = [("a", .int 7), ("b", .int 2)] := by decide

/-- Dict assignment: overwrite an existing key, or append a new binding at the end
(Python dicts preserve insertion order). -/
def dput (d : Dict) (k : String) (v : Val) : Dict :=
  if (dget d k).isSome then dset d k v else d ++ [(k, v)]

/-- Encode a dict as a JSON object value. -/
def Val.ofDict : Dict → Val
  | [] => .dnil
  | (k, v) :: rest => .dcons k v (Val.ofDict rest)

/-- Modelled from the spec: the endpoint constants live in constants.py, which is not
under src/; §6 of the spec names the ME, USER, TASKS and CATEGORIES endpoints.
They are modelled as opaque, pairwise distinct URL strings. -/
def ME_URL : String := "ME_URL"

def USER_URL : String := "USER_URL"

def TASKS_URL : String := "TASKS_URL"

def CATEGORIES_URL : String := "CATEGORIES_URL"

/-- The exceptions the code can raise: the `errors` module's wrappers around HTTP
failures, its `AttributeError` (the spec's `UnknownField`), the `Unauthorized`
raised during authentication, and Python's built-in KeyError/TypeError. -/
inductive ApiError where
  | badRequest (content : Val)
  | conflict (content : Val)
  | internalServer (status : Nat)
  | attributeError (msg : String)
  | keyError (key : String)
  | typeError
  | unauthorized
  deriving DecidableEq, Repr

/-- A transport response: HTTP status code and the (parsed) body. `content` and
`.json()` of the same response are modelled by the single `body` field. -/
structure Response where
  status : Nat
  body : Val
  deriving DecidableEq, Repr

/-- requests' `Response.raise_for_status` raises `HTTPError` exactly for the 4xx
client-error and 5xx server-error status ranges. -/
def raisesHTTPError (status : Nat) : Bool := 400 ≤ status && status < 600

/-- The except-block repeated in user.py's save/destroy/pending_tasks/approve/create:
status 400 → `BadRequestError(response.content)`, 409 → `ConflictError(response.content)`,
any other HTTP error → `InternalServerError(error)` wrapping the underlying error. -/
def classifyHTTPError (r : Response) : ApiError :=
  if r.status = 400 then .badRequest r.body
  else if r.status = 409 then .conflict r.body
  else .internalServer r.status

/-- A network request issued through the session, as observed by the transport.
`login` is the authentication request the spec-modelled client performs. -/
inductive Request where
  | put (url : String) (body : Dict)
  | get (url : String) (params : List (String × String))
  | post (url : String) (body : Option Dict)
  | delete (url : String) (puid : Val) (body : Dict)
  | login (email password : String)
  deriving DecidableEq, Repr

/-- A Task resource wrapping one element of the parsed tasks array
(`Task(data_dict=task, user=self)`; the back-reference to the owning user only
reaches the transport and is not part of the record's data). -/
structure Task where
  data_dict : Val
  deriving DecidableEq, Repr

/-- A Category resource wrapping one element of the parsed categories array. -/
structure Category where
  data_dict : Val
  deriving DecidableEq, Repr

/-- The `User` instance state: its `__dict__`. `data_dict` and `is_dirty` are set in
`__init__`; `tasks_list`, `categories_list` and `_pending_tasks` are the lazily
created collection caches (`none` models absence from the instance `__dict__`);
`extra` holds any other instance attributes created through `__setattr__`'s
fallback branch. The session handle is the external transport and carries no
modelled state. -/
structure User where
  data_dict : Dict
  is_dirty : Bool
  extra : Dict
  tasks_list : Option (List Task)
  categories_list : Option (List Category)
  pending_tasks_cache : Option Val
  deriving DecidableEq, Repr

/-- Embeds `User.__init__(session, data_dict)`. -/
def User.init (data_dict : Dict) : User :=
  { data_dict := data_dict, is_dirty := false, extra := []
    tasks_list := none, categories_list := none, pending_tasks_cache := none }

/-- Embeds `User.__reserved_attrs = ('data_dict', 'session', 'is_dirty')`. -/
def reservedAttrs : List String := ["data_dict", "session", "is_dirty"]

/-- The attributes of the `User` class object itself, as defined in user.py's class
body: the `_endpoint` constant, the name-mangled `_User__reserved_attrs` tuple,
and the methods. In CPython these are found by ordinary attribute lookup after an
instance `__dict__` miss (none is a data descriptor, so the instance dict wins),
and `__getattr__` runs only when this lookup fails too. Dunder attributes
inherited from `object` (e.g. `__class__`) are outside the modelled name
universe; no claim touches them. -/
def classAttrs : List String :=
  ["_endpoint", "_User__reserved_attrs",
   "__init__", "save", "destroy", "tasks", "categories", "add_task",
   "add_category", "default_category", "pending_tasks", "pending_tasks_ids",
   "approve_pending_task", "__getitem__", "__getattr__", "__setitem__",
   "__setattr__", "create"]

/-- Embeds `User.__getitem__`: `self.data_dict[key]`, raising KeyError when absent. -/
def User.getItem (u : User) (k : String) : Except ApiError Val :=
  match dget u.data_dict k with
  | some v => .ok v
  | none => .error (.keyError k)

/-- Python attribute read on a `User`: the instance `__dict__` is consulted first
(`data_dict`, `session`, `is_dirty`, any loaded collection cache, any extra
attribute); on a miss the class attributes (`classAttrs`: methods, `_endpoint`,
the mangled reserved tuple — none a data descriptor) resolve next; only when that
also fails does `User.__getattr__` (user.py:256-262) run, returning the mapping
field or raising `errors.AttributeError`. Non-JSON attribute objects — the
session, cache lists, bound methods — are represented as `Val.obj`. -/
def User.readAttr (u : User) (name : String) : Except ApiError Val :=
  if name = "data_dict" then .ok (Val.ofDict u.data_dict)
  else if name = "session" then .ok (.obj "session")
  else if name = "is_dirty" then .ok (.bool u.is_dirty)
  else if name = "tasks_list" && u.tasks_list.isSome then .ok (.obj "tasks_list")
  else if name = "categories_list" && u.categories_list.isSome then
    .ok (.obj "categories_list")
  else if name = "_pending_tasks" && u.pending_tasks_cache.isSome then
    .ok (.obj "_pending_tasks")
  else match dget u.extra name with
    | some v => .ok v
    | none =>
      if name ∈ classAttrs then .ok (.obj name)
      else
        match dget u.data_dict name with
        | some v => .ok v
        | none => .error (.attributeError (name ++ " is not exist"))

example : (User.init []).readAttr "save" = .ok (.obj "save") := by decide
example : (User.init []).readAttr "_endpoint" = .ok (.obj "_endpoint") := by decide

/-- Embeds `User.__setitem__` (user.py:264-272): update an existing mapping field, marking
the record dirty only when the value actually changes; raise on an unknown field. -/
def User.setItem (u : User) (attr : String) (new_value : Val) : Except ApiError User :=
  match dget u.data_dict attr with
  | some old_value =>
      if old_value ≠ new_value then
        .ok { u with data_dict := dset u.data_dict attr new_value, is_dirty := true }
      else .ok u
  | none => .error (.attributeError (attr ++ " is not exist"))

/-- Embeds `super(User, self).__setattr__`: an ordinary instance-attribute write. The code
only ever routes `is_dirty := bool` and fresh attribute names through this branch;
`data_dict` and `session` are assigned exactly once, in `__init__`, which
`User.init` models, so a reassignment of those two is modelled as an ordinary
attribute write. -/
def User.superSetAttr (u : User) (attr : String) (v : Val) : User :=
  if attr = "is_dirty" then { u with is_dirty := v.truthy }
  else { u with extra := dput u.extra attr v }

/-- Embeds `User.__setattr__` (user.py:274-282): a non-reserved name present in the mapping
gets the dirty-tracking update; everything else falls through to
`super().__setattr__`. -/
def User.setAttr (u : User) (attr : String) (new_value : Val) : User :=
  if attr ∉ reservedAttrs then
    match dget u.data_dict attr with
    | some old_value =>
        if old_value ≠ new_value then
          { u with data_dict := dset u.data_dict attr new_value, is_dirty := true }
        else u
    | none => u.superSetAttr attr new_value
  else u.superSetAttr attr new_value

/-- Embeds `User.save` (user.py:28-59): when dirty, one PUT of the full `data_dict` to the
ME endpoint, classified raise on HTTP error; afterwards (in both branches, when no
raise occurred) `is_dirty = False` and `self` is returned. The scripted `resp` is
the transport's answer to the PUT, consumed only if the PUT happens. Returns the
requests issued together with the outcome. -/
def User.save (u : User) (resp : Response) : List Request × Except ApiError User :=
  if u.is_dirty then
    let reqs := [Request.put ME_URL u.data_dict]
    if raisesHTTPError resp.status then (reqs, .error (classifyHTTPError resp))
    else (reqs, .ok { u with is_dirty := false })
  else ([], .ok { u with is_dirty := false })

/-- Embeds `User.destroy` (user.py:61-90): builds headers from `self.data_dict['id']`
(KeyError when absent), then a DELETE whose body reads `self.email` and
`self.password` through attribute lookup (each may raise), then the classified
raise on HTTP error; returns `self` on success. -/
def User.destroy (u : User) (resp : Response) : List Request × Except ApiError User :=
  match dget u.data_dict "id" with
  | none => ([], .error (.keyError "id"))
  | some puid =>
    match u.readAttr "email" with
    | .error e => ([], .error e)
    | .ok email =>
      match u.readAttr "password" with
      | .error e => ([], .error e)
      | .ok password =>
        let reqs := [Request.delete USER_URL puid [("email", email), ("password", password)]]
        if raisesHTTPError resp.status then (reqs, .error (classifyHTTPError resp))
        else (reqs, .ok u)

/-- Modelled from the spec: `Task.filter_tasks` lives in task.py, which is not under
src/. Per §4.4 an element is kept iff it matches all requested predicates, the
predicates being deleted/done/checked state read off the element's flags;
predicates default to include. A flag absent from the element's data counts as
unset. -/
def Task.flag (t : Task) (k : String) : Bool :=
  match t.data_dict.dictGet k with
  | some v => v.truthy
  | none => false

/-- Modelled from the spec: keep a task iff every requested predicate admits it
(see `Task.flag`). -/
def Task.filter_tasks (ts : List Task)
    (include_deleted include_done include_checked include_unchecked : Bool) :
    List Task :=
  ts.filter fun t =>
    (include_deleted || !t.flag "isDeleted") &&
    (include_done || !t.flag "isDone") &&
    (if t.flag "isChecked" then include_checked else include_unchecked)

/-- Lower-cased Python boolean string, as sent in query parameters. -/
def boolStr (b : Bool) : String := if b then "true" else "false"

/-- Embeds `User.tasks` (user.py:92-123): fetch and cache the task list when the cache is
absent or `refresh` is set (one GET with `includeDeleted`/`includeDone` params,
each array element wrapped as a `Task`), then return `Task.filter_tasks` of the
cached list. `respItems` is the parsed JSON array of the scripted GET response. -/
def User.tasks (u : User)
    (refresh include_deleted include_done include_checked include_unchecked : Bool)
    (respItems : List Val) : List Request × (User × List Task) :=
  let fetchNeeded := u.tasks_list.isNone || refresh
  let params := [("includeDeleted", boolStr include_deleted),
                 ("includeDone", boolStr include_done)]
  let (reqs, u') :=
    if fetchNeeded then
      ([Request.get TASKS_URL params],
       { u with tasks_list := some (respItems.map Task.mk) })
    else ([], u)
  let cached := u'.tasks_list.getD []
  (reqs, (u', Task.filter_tasks cached
      include_deleted include_done include_checked include_unchecked))

/-- The local categories filter (user.py:144-145):
`list(filter(lambda cat: not cat['isDeleted'], result))`. The item access
`cat['isDeleted']` goes through the Category record's mapping view (spec §3) and
raises KeyError when the field is absent, aborting the whole call. -/
def filterNotDeleted : List Category → Except ApiError (List Category)
  | [] => .ok []
  | c :: cs =>
    match c.data_dict.dictGet "isDeleted" with
    | none => .error (.keyError "isDeleted")
    | some v =>
      match filterNotDeleted cs with
      | .error e => .error e
      | .ok rest => .ok (if v.truthy then rest else c :: rest)

/-- Embeds `User.categories` (user.py:125-147): fetch and cache the category list when the
cache is absent or `refresh` is set (one GET with an `includeDeleted` param), then
return the cached list, locally filtered by `isDeleted` unless `include_deleted`. -/
def User.categories (u : User) (refresh include_deleted : Bool)
    (respItems : List Val) : List Request × Except ApiError (User × List Category) :=
  let fetchNeeded := u.categories_list.isNone || refresh
  let (reqs, u') :=
    if fetchNeeded then
      ([Request.get CATEGORIES_URL [("includeDeleted", boolStr include_deleted)]],
       { u with categories_list := some (respItems.map Category.mk) })
    else ([], u)
  let result := u'.categories_list.getD []
  if include_deleted then (reqs, .ok (u', result))
  else
    match filterNotDeleted result with
    | .error e => (reqs, .error e)
    | .ok filtered => (reqs, .ok (u', filtered))

/-- Embeds `User.add_task` (user.py:149-157): append to the cache, or initialize a
one-element cache; no network contact. -/
def User.add_task (u : User) (t : Task) : User :=
  match u.tasks_list with
  | some ts => { u with tasks_list := some (ts ++ [t]) }
  | none => { u with tasks_list := some [t] }

/-- Embeds `User.add_category` (user.py:159-167). -/
def User.add_category (u : User) (c : Category) : User :=
  match u.categories_list with
  | some cs => { u with categories_list := some (cs ++ [c]) }
  | none => { u with categories_list := some [c] }

/-- Embeds `User.pending_tasks` (user.py:175-208): when the `_pending_tasks` cache is
absent or `refresh` is set, one GET of `ME/pending`, classified raise on HTTP
error, then the cache is set to `response.json()['pendingTasks']` (KeyError when
the key is absent, TypeError when the body is not an object); the return value is
`self._pending_tasks or []`. -/
def User.pending_tasks (u : User) (refresh : Bool) (resp : Response) :
    List Request × Except ApiError (User × Val) :=
  match u.pending_tasks_cache, refresh with
  | some cached, false =>
      ([], .ok (u, if cached.truthy then cached else .vnil))
  | _, _ =>
    let reqs := [Request.get (ME_URL ++ "/pending") []]
    if raisesHTTPError resp.status then (reqs, .error (classifyHTTPError resp))
    else if resp.body.isDict then
      match resp.body.dictGet "pendingTasks" with
      | some v =>
          (reqs, .ok ({ u with pending_tasks_cache := some v },
                      if v.truthy then v else .vnil))
      | none => (reqs, .error (.keyError "pendingTasks"))
    else (reqs, .error .typeError)

/-- Embeds `User.approve_pending_task` (user.py:217-251):
`task_id = pending_task_id or pending_task['id']` (indexing `None` is a TypeError,
a missing `'id'` a KeyError); a falsy id raises `errors.AttributeError`; otherwise
one POST to `ME/pending/{id}/accept` (string concatenation of the id, TypeError
for a non-string), classified raise on HTTP error, else the parsed response body
is returned. Both optional arguments default to `Val.null` in Python. -/
def User.approve_pending_task (_u : User) (pending_task_id pending_task : Val)
    (resp : Response) : List Request × Except ApiError Val :=
  let tid? : Except ApiError Val :=
    if pending_task_id.truthy then .ok pending_task_id
    else if pending_task.isDict then
      match pending_task.dictGet "id" with
      | some v => .ok v
      | none => .error (.keyError "id")
    else .error .typeError
  match tid? with
  | .error e => ([], .error e)
  | .ok tid =>
    if !tid.truthy then
      ([], .error (.attributeError
        "Eather :pending_task_id or :pending_task argument is required."))
    else
      match tid with
      | .str s =>
        let reqs := [Request.post (ME_URL ++ "/pending/" ++ s ++ "/accept") none]
        if raisesHTTPError resp.status then (reqs, .error (classifyHTTPError resp))
        else (reqs, .ok resp.body)
      | _ => ([], .error .typeError)

/-- Modelled from the spec: `Client` and its `me()` live in client.py, which is not
under src/. Per §2, §4.3 and §7 of the spec the client authenticates with the
given credentials — raising `Unauthorized` on authentication failure, producing no
User — and `me()` returns the freshly fetched User record built from the ME
endpoint's response body. `authResp` scripts the authentication outcome and
`meBody` the fetched record. -/
def clientMe (email password : String) (authResp : Response) (meBody : Dict) :
    List Request × Except ApiError User :=
  if 200 ≤ authResp.status && authResp.status < 300 then
    ([Request.login email password, Request.get ME_URL []], .ok (User.init meBody))
  else ([Request.login email password], .error .unauthorized)

/-- Embeds `User.create` (user.py:284-324): one POST of the registration payload
(`emails or email`, the phone numbers list) to the USER endpoint, classified raise
on HTTP error; then the result of `Client(email, password).me()` is returned — the
POST response body itself is never used as the result. -/
def User.create (name email password : String) (emails : Val) (phone_numbers : List Val)
    (postResp : Response) (authResp : Response) (meBody : Dict) :
    List Request × Except ApiError User :=
  let json_data : Dict :=
    [("name", .str name), ("username", .str email), ("password", .str password),
     ("emails", if emails.truthy then emails else .str email),
     ("phoneNumbers", Val.ofList phone_numbers)]
  let req := Request.post USER_URL (some json_data)
  if raisesHTTPError postResp.status then ([req], .error (classifyHTTPError postResp))
  else
    let fetched := clientMe email password authResp meBody
    (req :: fetched.1, fetched.2)

/-- The spec's error-taxonomy contract, as amended to the status ranges
`raise_for_status` actually distinguishes, written from the spec's words for
comparison with the code: the outcome of one classified network call is
`BadRequest` carrying the body at status 400, `Conflict` carrying the body at 409,
`InternalServiceError` at any other 4xx/5xx, and the operation's success outcome
at any status outside 400–599 (the 2xx family, but also e.g. 304). -/
def taxonomyOutcome {α : Type} (resp : Response) (onSuccess : Except ApiError α) :
    Except ApiError α :=
  if resp.status = 400 then .error (.badRequest resp.body)
  else if resp.status = 409 then .error (.conflict resp.body)
  else if 400 ≤ resp.status ∧ resp.status < 600 then
    .error (.internalServer resp.status)
  else onSuccess

/-! ## Dict lemmas -/

theorem dget_dset_self (d : Dict) (k : String) (v cur : Val)
    (h : dget d k = some cur) : dget (dset d k v) k = some v := by
  induction d with
  | nil => simp [dget] at h
  | cons hd tl ih =>
      obtain ⟨k', v'⟩ := hd
      by_cases hk : k' = k
      · subst hk; simp [dget, dset]
      · simp only [dget, dset, if_neg hk] at h ⊢
        exact ih h

theorem dget_append_new (d : Dict) (k : String) (v : Val)
    (h : dget d k = none) : dget (d ++ [(k, v)]) k = some v := by
  induction d with
  | nil => simp [dget]
  | cons hd tl ih =>
      obtain ⟨k', v'⟩ := hd
      by_cases hk : k' = k
      · simp [dget, hk] at h
      · simp only [dget, List.cons_append, if_neg hk] at h ⊢
        exact ih h

theorem dget_dput_self (d : Dict) (k : String) (v : Val) :
    dget (dput d k v) k = some v := by
  unfold dput
  cases hd : dget d k with
  | none => simp only [hd, Option.isSome_none, Bool.false_eq_true, if_false]
            exact dget_append_new d k v hd
  | some cur => simp only [hd, Option.isSome_some, if_true]
                exact dget_dset_self d k v cur hd

/-! ## Claim theorems -/

/-- C1: for every `User` and every field present in its mapping, item assignment of
a value different from the current one stores the new value (a subsequent get
returns it) and sets the dirty flag; assigning the current value back leaves the
whole record — mapping and dirty flag — unchanged. -/
theorem setItem_dirty_tracking (u : User) (f : String) (cur v : Val)
    (hf : dget u.data_dict f = some cur) :
    (v ≠ cur →
      u.setItem f v
        = .ok { u with data_dict := dset u.data_dict f v, is_dirty := true } ∧
      dget (dset u.data_dict f v) f = some v) ∧
    u.setItem f cur = .ok u := by
  constructor
  · intro hne
    refine ⟨?_, dget_dset_self u.data_dict f v cur hf⟩
    have hcv : cur ≠ v := fun h => hne h.symm
    simp [User.setItem, hf, hcv]
  · simp [User.setItem, hf]

/-- Witness for C1 at a concrete record: the field `"name"` holds `"X"`; setting
`"Y"` stores it and marks the record dirty, while re-assigning `"X"` is a no-op. -/
theorem setItem_dirty_tracking_witness :
    (Val.str "Y" ≠ Val.str "X" →
      (User.init [("name", Val.str "X")]).setItem "name" (Val.str "Y")
        = .ok { User.init [("name", Val.str "X")] with
                  data_dict := dset [("name", Val.str "X")] "name" (Val.str "Y"),
                  is_dirty := true } ∧
      dget (dset [("name", Val.str "X")] "name" (Val.str "Y")) "name"
        = some (Val.str "Y")) ∧
    (User.init [("name", Val.str "X")]).setItem "name" (Val.str "X")
      = .ok (User.init [("name", Val.str "X")]) :=
  setItem_dirty_tracking (User.init [("name", Val.str "X")]) "name"
    (Val.str "X") (Val.str "Y") (by decide)

/-- C3: `save()` on a record that is not dirty performs no network call at all and
returns the very same record. -/
theorem save_clean_noop (u : User) (resp : Response) (h : u.is_dirty = false) :
    u.save resp = ([], .ok u) := by
  cases u
  simp only at h
  subst h
  simp [User.save]

/-- Witness for C3: a clean record's save, scripted against a 500 response that is
never requested. -/
theorem save_clean_noop_witness :
    (User.init [("name", Val.str "X")]).save { status := 500, body := .dnil }
      = ([], .ok (User.init [("name", Val.str "X")])) :=
  save_clean_noop (User.init [("name", Val.str "X")])
    { status := 500, body := .dnil } (by decide)

/-- C4 counterexample: the claim says reading any field name never present in the
mapping raises `errors.AttributeError`, but the name `"is_dirty"` — never a
mapping field of this record — resolves to the instance attribute set by
`__init__` and is returned without raising. -/
theorem readAttr_reserved_counterexample :
    dget (User.init []).data_dict "is_dirty" = none ∧
    (User.init []).readAttr "is_dirty" = .ok (Val.bool false) := by decide

/-- C4 (amended): reading a field name absent from the mapping raises
`errors.AttributeError` provided the name also resolves to no instance attribute
and no class attribute (it is none of the reserved `data_dict`/`session`/
`is_dirty`, no loaded collection cache, no previously created extra attribute,
and none of the class-level names — the methods, `_endpoint` and the mangled
reserved tuple — which ordinary lookup finds before `__getattr__` ever runs); and
item-style assignment to any name absent from the mapping raises
`errors.AttributeError`, the record — mapping and dirty flag — being left
unchanged (the error outcome carries no state update, and the code mutates
nothing before raising). -/
theorem unknownField_read_set (u : User) (f : String) (v : Val)
    (hmap : dget u.data_dict f = none)
    (hres : f ∉ reservedAttrs)
    (htl : f = "tasks_list" → u.tasks_list = none)
    (hcl : f = "categories_list" → u.categories_list = none)
    (hpt : f = "_pending_tasks" → u.pending_tasks_cache = none)
    (hextra : dget u.extra f = none)
    (hclass : f ∉ classAttrs) :
    u.readAttr f = .error (.attributeError (f ++ " is not exist")) ∧
    u.setItem f v = .error (.attributeError (f ++ " is not exist")) := by
  have h1 : f ≠ "data_dict" := fun h => hres (h ▸ by decide)
  have h2 : f ≠ "session" := fun h => hres (h ▸ by decide)
  have h3 : f ≠ "is_dirty" := fun h => hres (h ▸ by decide)
  constructor
  · unfold User.readAttr
    rw [if_neg h1, if_neg h2, if_neg h3]
    have e1 : (f = "tasks_list" && u.tasks_list.isSome) = false := by
      by_cases hf : f = "tasks_list"
      · simp [hf, htl hf]
      · simp [hf]
    have e2 : (f = "categories_list" && u.categories_list.isSome) = false := by
      by_cases hf : f = "categories_list"
      · simp [hf, hcl hf]
      · simp [hf]
    have e3 : (f = "_pending_tasks" && u.pending_tasks_cache.isSome) = false := by
      by_cases hf : f = "_pending_tasks"
      · simp [hf, hpt hf]
      · simp [hf]
    simp only [e1, e2, e3, Bool.false_eq_true, if_false, hextra, hclass, hmap]
  · simp [User.setItem, hmap]

/-- Witness for C4: a record with the single field `"a"`: both reading and setting
the absent field `"b"` raise `errors.AttributeError`. -/
theorem unknownField_read_set_witness :
    (User.init [("a", Val.int 1)]).readAttr "b"
      = .error (.attributeError ("b" ++ " is not exist")) ∧
    (User.init [("a", Val.int 1)]).setItem "b" (Val.int 2)
      = .error (.attributeError ("b" ++ " is not exist")) :=
  unknownField_read_set (User.init [("a", Val.int 1)]) "b" (Val.int 2)
    (by decide) (by decide) (by decide) (by decide) (by decide) (by decide)
    (by decide)

/-- C10: attribute-style assignment to a name that is neither reserved
(`data_dict`/`session`/`is_dirty`) nor present in the mapping does not raise: it
falls through to `super().__setattr__`, creating an ordinary instance attribute
readable afterwards, with the field mapping and the dirty flag unchanged. -/
theorem setAttr_unknown_creates_attr (u : User) (f : String) (v : Val)
    (hres : f ∉ reservedAttrs) (hmap : dget u.data_dict f = none) :
    u.setAttr f v = { u with extra := dput u.extra f v } ∧
    (u.setAttr f v).data_dict = u.data_dict ∧
    (u.setAttr f v).is_dirty = u.is_dirty ∧
    dget (u.setAttr f v).extra f = some v := by
  have h3 : f ≠ "is_dirty" := fun h => hres (h ▸ by decide)
  have hstep : u.setAttr f v = { u with extra := dput u.extra f v } := by
    simp [User.setAttr, hres, hmap, User.superSetAttr, h3]
  refine ⟨hstep, ?_, ?_, ?_⟩ <;> rw [hstep]
  exact dget_dput_self u.extra f v

/-- Witness for C10: assigning the unknown name `"nickname"` on a record whose
mapping only has `"a"` silently creates an instance attribute. -/
theorem setAttr_unknown_creates_attr_witness :
    (User.init [("a", Val.int 1)]).setAttr "nickname" (Val.str "Bob")
      = { User.init [("a", Val.int 1)] with
            extra := dput [] "nickname" (Val.str "Bob") } ∧
    ((User.init [("a", Val.int 1)]).setAttr "nickname" (Val.str "Bob")).data_dict
      = (User.init [("a", Val.int 1)]).data_dict ∧
    ((User.init [("a", Val.int 1)]).setAttr "nickname" (Val.str "Bob")).is_dirty
      = (User.init [("a", Val.int 1)]).is_dirty ∧
    dget ((User.init [("a", Val.int 1)]).setAttr "nickname" (Val.str "Bob")).extra
      "nickname" = some (Val.str "Bob") :=
  setAttr_unknown_creates_attr (User.init [("a", Val.int 1)]) "nickname"
    (Val.str "Bob") (by decide) (by decide)

/-- The spec-side outcome and the code's raise-then-classify shape agree: the
amended taxonomy is exactly "classify when `raise_for_status` raises, succeed
otherwise". -/
theorem taxonomyOutcome_eq {α : Type} (resp : Response) (onS : Except ApiError α) :
    taxonomyOutcome resp onS =
      if raisesHTTPError resp.status then .error (classifyHTTPError resp) else onS := by
  unfold taxonomyOutcome raisesHTTPError classifyHTTPError
  by_cases h4 : resp.status = 400
  · simp [h4]
  · by_cases h9 : resp.status = 409
    · simp [h4, h9, h9 ▸ (by decide : (400 ≤ 409 && 409 < 600) = true)]
    · by_cases hr : 400 ≤ resp.status ∧ resp.status < 600
      · simp [h4, h9, hr.1, hr.2]
      · have : (400 ≤ resp.status && resp.status < 600) = false := by
          rw [Bool.and_eq_false_iff]
          rcases Nat.lt_or_ge resp.status 400 with hlt | hge
          · exact Or.inl (by simpa using Nat.not_le_of_lt hlt)
          · exact Or.inr (by simpa using fun hlt' => hr ⟨hge, hlt'⟩)
        simp [h4, h9, hr, this]

/-- C2 counterexample: a dirty record saved against a 304 Not Modified response — a
non-2xx status — does not raise: requests' `raise_for_status` raises only for 4xx
and 5xx, so `save()` falls through the try-block, clears the dirty flag and
returns the record, where the claim demands a raised error and an untouched dirty
flag. -/
theorem save_not_modified_counterexample :
    ({ User.init [("name", Val.str "X")] with is_dirty := true }).save
        { status := 304, body := Val.dnil }
      = ([Request.put ME_URL [("name", Val.str "X")]],
         .ok (User.init [("name", Val.str "X")])) := by decide

/-- C2 (amended): for a dirty record, `save()` issues exactly one PUT whose body is
the full field mapping; a 400 response raises `BadRequest` carrying the body, 409
raises `Conflict` carrying the body, any other 4xx or 5xx raises
`InternalServiceError`; a status outside 400–599 — the 2xx family, but also e.g.
304 — clears the dirty flag and returns the record. A raising outcome produces no
state update: the record, its mapping and its dirty flag, is left as it was, so
the caller may retry `save()`. -/
theorem save_dirty_put_taxonomy (u : User) (resp : Response)
    (h : u.is_dirty = true) :
    (u.save resp).1 = [Request.put ME_URL u.data_dict] ∧
    (u.save resp).2 = taxonomyOutcome resp (.ok { u with is_dirty := false }) := by
  rw [taxonomyOutcome_eq]
  cases hb : raisesHTTPError resp.status <;>
    simp [User.save, h, hb]

/-- Witness for C2 at a concrete dirty record and a 409 response: one PUT of the
full mapping, and a `Conflict` carrying the response body. -/
theorem save_dirty_put_taxonomy_witness :
    (({ User.init [("a", Val.int 1)] with is_dirty := true }).save
        { status := 409, body := Val.str "stale" }).1
      = [Request.put ME_URL [("a", Val.int 1)]] ∧
    (({ User.init [("a", Val.int 1)] with is_dirty := true }).save
        { status := 409, body := Val.str "stale" }).2
      = taxonomyOutcome { status := 409, body := Val.str "stale" }
          (.ok (User.init [("a", Val.int 1)])) :=
  save_dirty_put_taxonomy { User.init [("a", Val.int 1)] with is_dirty := true }
    { status := 409, body := Val.str "stale" } (by decide)

/-- A value with a successful object lookup is an object. -/
theorem isDict_of_dictGet {v : Val} {k : String} {w : Val}
    (h : v.dictGet k = some w) : v.isDict = true := by
  cases v <;> simp [Val.dictGet, Val.isDict] at h ⊢

/-- C5 counterexample: `destroy()` against a 304 Not Modified response — non-2xx —
raises nothing at all: it returns the record, where the claim demands an
`InternalServiceError` for every non-2xx status other than 400 and 409. -/
theorem destroy_not_modified_counterexample :
    (User.init [("id", Val.int 5), ("email", Val.str "e"),
                ("password", Val.str "p")]).destroy
        { status := 304, body := Val.dnil }
      = ([Request.delete USER_URL (Val.int 5)
            [("email", Val.str "e"), ("password", Val.str "p")]],
         .ok (User.init [("id", Val.int 5), ("email", Val.str "e"),
                         ("password", Val.str "p")])) := by decide

/-- C5 (amended): each network-calling operation — `save` on a dirty record,
`destroy` on a record with id/email/password, `pending_tasks` (refreshing, against
a body that has the `pendingTasks` key), `approve_pending_task` with a non-empty
string id, and `create` — classifies its scripted response identically: 400 raises
`BadRequest` carrying the body, 409 raises `Conflict` carrying the body, any other
4xx/5xx raises `InternalServiceError`, and any status outside 400–599 (not just
the 2xx family) raises nothing, the operation's success outcome being produced
instead (for `create`, the outcome of the subsequent authenticated fetch). -/
theorem error_taxonomy_all_ops
    (u : User) (resp : Response) (puid em pw pv : Val) (sid : String)
    (name email password : String) (meBody : Dict) (authResp : Response)
    (hd : u.is_dirty = true)
    (hid : dget u.data_dict "id" = some puid)
    (hem : u.readAttr "email" = .ok em)
    (hpw : u.readAttr "password" = .ok pw)
    (hsid : sid ≠ "")
    (hbody : resp.body.dictGet "pendingTasks" = some pv) :
    (u.save resp).2 = taxonomyOutcome resp (.ok { u with is_dirty := false }) ∧
    (u.destroy resp).2 = taxonomyOutcome resp (.ok u) ∧
    (u.pending_tasks true resp).2
      = taxonomyOutcome resp
          (.ok ({ u with pending_tasks_cache := some pv },
                if pv.truthy then pv else .vnil)) ∧
    (u.approve_pending_task (.str sid) .null resp).2
      = taxonomyOutcome resp (.ok resp.body) ∧
    (User.create name email password .null [] resp authResp meBody).2
      = taxonomyOutcome resp (clientMe email password authResp meBody).2 := by
  rw [taxonomyOutcome_eq, taxonomyOutcome_eq, taxonomyOutcome_eq,
    taxonomyOutcome_eq, taxonomyOutcome_eq]
  refine ⟨?_, ?_, ?_, ?_, ?_⟩
  · cases hb : raisesHTTPError resp.status <;> simp [User.save, hd, hb]
  · cases hb : raisesHTTPError resp.status <;>
      simp [User.destroy, hid, hem, hpw, hb]
  · have hdict := isDict_of_dictGet hbody
    cases hb : raisesHTTPError resp.status <;>
      simp [User.pending_tasks, hb, hdict, hbody]
  · have htr : (Val.str sid).truthy = true := by
      simp [Val.truthy]; exact hsid
    cases hb : raisesHTTPError resp.status <;>
      simp [User.approve_pending_task, htr, hb]
  · cases hb : raisesHTTPError resp.status <;>
      simp [User.create, hb]

/-- Witness for C5 at a concrete record and a 503 response: every operation's
outcome is the instantiated taxonomy outcome (an `InternalServiceError` here). -/
theorem error_taxonomy_all_ops_witness :
    (({ User.init [("id", Val.int 5), ("email", Val.str "e"),
                   ("password", Val.str "p")] with is_dirty := true }).save
        { status := 503, body := Val.dcons "pendingTasks" Val.null Val.dnil }).2
      = taxonomyOutcome
          { status := 503, body := Val.dcons "pendingTasks" Val.null Val.dnil }
          (.ok (User.init [("id", Val.int 5), ("email", Val.str "e"),
                           ("password", Val.str "p")])) :=
  (error_taxonomy_all_ops
    { User.init [("id", Val.int 5), ("email", Val.str "e"),
                 ("password", Val.str "p")] with is_dirty := true }
    { status := 503, body := Val.dcons "pendingTasks" Val.null Val.dnil }
    (Val.int 5) (Val.str "e") (Val.str "p") Val.null "t1"
    "n" "e@x" "pw" [] { status := 200, body := Val.dnil }
    (by decide) (by decide) (by decide) (by decide) (by decide) (by decide)).1

/-- C6: starting from an unloaded cache, the first accessor call issues one GET and
caches the wrapped response; a second call without refresh issues no request and
returns the very same state and view (the cached member objects are identical);
a call with `refresh` issues a second GET and replaces the cache wholesale with
the new response, the returned sequence reflecting it. Stated for both the task
and the category collection. -/
theorem collection_caching (u : User)
    (incDel incDone incChecked incUnchecked : Bool) (items1 items2 : List Val)
    (htask : u.tasks_list = none) (hcat : u.categories_list = none) :
    (u.tasks false incDel incDone incChecked incUnchecked items1
      = ([Request.get TASKS_URL [("includeDeleted", boolStr incDel),
                                 ("includeDone", boolStr incDone)]],
         ({ u with tasks_list := some (items1.map Task.mk) },
          Task.filter_tasks (items1.map Task.mk)
            incDel incDone incChecked incUnchecked))) ∧
    ({ u with tasks_list := some (items1.map Task.mk) }.tasks
        false incDel incDone incChecked incUnchecked items2
      = ([], ({ u with tasks_list := some (items1.map Task.mk) },
              Task.filter_tasks (items1.map Task.mk)
                incDel incDone incChecked incUnchecked))) ∧
    ({ u with tasks_list := some (items1.map Task.mk) }.tasks
        true incDel incDone incChecked incUnchecked items2
      = ([Request.get TASKS_URL [("includeDeleted", boolStr incDel),
                                 ("includeDone", boolStr incDone)]],
         ({ u with tasks_list := some (items2.map Task.mk) },
          Task.filter_tasks (items2.map Task.mk)
            incDel incDone incChecked incUnchecked))) ∧
    (u.categories false incDel items1
      = ([Request.get CATEGORIES_URL [("includeDeleted", boolStr incDel)]],
         if incDel then
           .ok ({ u with categories_list := some (items1.map Category.mk) },
                items1.map Category.mk)
         else
           match filterNotDeleted (items1.map Category.mk) with
           | .error e => .error e
           | .ok l =>
               .ok ({ u with categories_list := some (items1.map Category.mk) }, l))) ∧
    ({ u with categories_list := some (items1.map Category.mk) }.categories
        false incDel items2
      = ([],
         if incDel then
           .ok ({ u with categories_list := some (items1.map Category.mk) },
                items1.map Category.mk)
         else
           match filterNotDeleted (items1.map Category.mk) with
           | .error e => .error e
           | .ok l =>
               .ok ({ u with categories_list := some (items1.map Category.mk) }, l))) ∧
    ({ u with categories_list := some (items1.map Category.mk) }.categories
        true incDel items2
      = ([Request.get CATEGORIES_URL [("includeDeleted", boolStr incDel)]],
         if incDel then
           .ok ({ u with categories_list := some (items2.map Category.mk) },
                items2.map Category.mk)
         else
           match filterNotDeleted (items2.map Category.mk) with
           | .error e => .error e
           | .ok l =>
               .ok ({ u with categories_list := some (items2.map Category.mk) }, l))) := by
  refine ⟨?_, ?_, ?_, ?_, ?_, ?_⟩
  · simp [User.tasks, htask]
  · simp [User.tasks]
  · simp [User.tasks]
  · by_cases h : incDel
    · simp [User.categories, hcat, h]
    · simp only [User.categories, hcat, h]
      cases hfd : filterNotDeleted (items1.map Category.mk) <;> simp [hfd]
  · by_cases h : incDel
    · simp [User.categories, h]
    · simp only [User.categories, h]
      cases hfd : filterNotDeleted (items1.map Category.mk) <;> simp [hfd]
  · by_cases h : incDel
    · simp [User.categories, h]
    · simp only [User.categories, h]
      cases hfd : filterNotDeleted (items2.map Category.mk) <;> simp [hfd]

/-- Witness for C6: a fresh record, a two-element first response and a one-element
second response; the second no-refresh call issues no request and returns the
first call's cached view. -/
theorem collection_caching_witness :
    ({ User.init [] with tasks_list := some ([Val.dnil, Val.null].map Task.mk) }.tasks
        false true true true true [Val.int 9]
      = ([], ({ User.init [] with
                  tasks_list := some ([Val.dnil, Val.null].map Task.mk) },
              Task.filter_tasks ([Val.dnil, Val.null].map Task.mk)
                true true true true))) :=
  (collection_caching (User.init []) true true true true
    [Val.dnil, Val.null] [Val.int 9] (by decide) (by decide)).2.1

theorem and_le_lt_eq_true {a b s : Nat} (h1 : a ≤ s) (h2 : s < b) :
    (a ≤ s && s < b) = true := by simp [h1, h2]

theorem and_le_lt_eq_false {a b s : Nat} (h : ¬(a ≤ s ∧ s < b)) :
    (a ≤ s && s < b) = false := by
  by_cases h1 : a ≤ s
  · by_cases h2 : s < b
    · exact absurd ⟨h1, h2⟩ h
    · simp [h2]
  · simp [h1]

/-- C7 counterexample: a successful (200) response whose body lacks the
`pendingTasks` key: the claim says the empty list is returned when the field is
absent, but `response.json()['pendingTasks']` raises KeyError instead. -/
theorem pending_tasks_absent_counterexample :
    (User.init []).pending_tasks false { status := 200, body := Val.dnil }
      = ([Request.get (ME_URL ++ "/pending") []],
         .error (.keyError "pendingTasks")) := by decide

/-- C7 (amended): with no cached value, `pending_tasks()` returns the empty list
when the response's `pendingTasks` field is null; when the field is absent from
the body it raises KeyError rather than returning the empty list; and on any
4xx/5xx response it raises the classified taxonomy error before the body is ever
read — so the "no pending tasks" and "fetch failed" outcomes are never
conflated. -/
theorem pending_tasks_empty_vs_error (u : User) (resp : Response)
    (hcache : u.pending_tasks_cache = none) :
    (¬(400 ≤ resp.status ∧ resp.status < 600) →
      (resp.body.dictGet "pendingTasks" = some Val.null →
        u.pending_tasks false resp
          = ([Request.get (ME_URL ++ "/pending") []],
             .ok ({ u with pending_tasks_cache := some Val.null }, Val.vnil))) ∧
      (resp.body.isDict = true → resp.body.dictGet "pendingTasks" = none →
        u.pending_tasks false resp
          = ([Request.get (ME_URL ++ "/pending") []],
             .error (.keyError "pendingTasks")))) ∧
    (400 ≤ resp.status → resp.status < 600 →
      u.pending_tasks false resp
        = ([Request.get (ME_URL ++ "/pending") []],
           .error (classifyHTTPError resp))) := by
  constructor
  · intro hok
    have hb : raisesHTTPError resp.status = false := and_le_lt_eq_false hok
    constructor
    · intro hnull
      have hdict := isDict_of_dictGet hnull
      simp [User.pending_tasks, hcache, hb, hdict, hnull, Val.truthy]
    · intro hdict habsent
      simp [User.pending_tasks, hcache, hb, hdict, habsent]
  · intro h1 h2
    have hb : raisesHTTPError resp.status = true := and_le_lt_eq_true h1 h2
    simp [User.pending_tasks, hcache, hb]

/-- Witness for C7: a 200 response carrying `pendingTasks: null` yields the empty
list. -/
theorem pending_tasks_empty_vs_error_witness :
    (User.init []).pending_tasks false
        { status := 200, body := Val.dcons "pendingTasks" Val.null Val.dnil }
      = ([Request.get (ME_URL ++ "/pending") []],
         .ok ({ User.init [] with pending_tasks_cache := some Val.null },
              Val.vnil)) :=
  ((pending_tasks_empty_vs_error (User.init [])
      { status := 200, body := Val.dcons "pendingTasks" Val.null Val.dnil }
      (by decide)).1 (by decide)).1 (by decide)

/-- Every member of a cached category list with boolean `isDeleted` flags passes
`filterNotDeleted` iff its flag is not true. -/
theorem filterNotDeleted_booleans (cs : List Category)
    (h : ∀ c ∈ cs, ∃ b, c.data_dict.dictGet "isDeleted" = some (.bool b)) :
    filterNotDeleted cs = .ok (cs.filter fun c =>
      c.data_dict.dictGet "isDeleted" ≠ some (.bool true)) := by
  induction cs with
  | nil => simp [filterNotDeleted]
  | cons c rest ih =>
      obtain ⟨b, hb⟩ := h c (List.mem_cons_self c rest)
      have ht := ih (fun c' hc' => h c' (List.mem_cons_of_mem _ hc'))
      cases b <;> simp [filterNotDeleted, hb, ht, Val.truthy, List.filter_cons]

/-- C8: with a loaded category cache whose members carry boolean `isDeleted` flags,
`categories(include_deleted=False)` issues no request and returns exactly the
cached members whose flag is not `true` — a purely local filter pass, independent
of the scripted server response — while `include_deleted=True` excludes nothing. -/
theorem categories_local_filter (u : User) (cs : List Category) (respItems : List Val)
    (hcache : u.categories_list = some cs)
    (hflags : ∀ c ∈ cs, ∃ b, c.data_dict.dictGet "isDeleted" = some (.bool b)) :
    u.categories false false respItems
      = ([], .ok (u, cs.filter fun c =>
          c.data_dict.dictGet "isDeleted" ≠ some (.bool true))) ∧
    u.categories false true respItems = ([], .ok (u, cs)) := by
  constructor
  · simp [User.categories, hcache, filterNotDeleted_booleans cs hflags]
  · simp [User.categories, hcache]

/-- Witness for C8 on a mixed cache: the deleted member is locally excluded without
a request, and kept when `include_deleted=True`. -/
theorem categories_local_filter_witness :
    ({ User.init [] with categories_list := some (
        [⟨Val.dcons "isDeleted" (Val.bool true) Val.dnil⟩,
         ⟨Val.dcons "isDeleted" (Val.bool false) Val.dnil⟩]) }).categories
        false false [Val.int 3]
      = ([], .ok ({ User.init [] with categories_list := some (
            [⟨Val.dcons "isDeleted" (Val.bool true) Val.dnil⟩,
             ⟨Val.dcons "isDeleted" (Val.bool false) Val.dnil⟩]) },
          ([⟨Val.dcons "isDeleted" (Val.bool true) Val.dnil⟩,
            ⟨Val.dcons "isDeleted" (Val.bool false) Val.dnil⟩] : List Category).filter
            fun c => c.data_dict.dictGet "isDeleted" ≠ some (.bool true))) :=
  (categories_local_filter
    { User.init [] with categories_list := some (
        [⟨Val.dcons "isDeleted" (Val.bool true) Val.dnil⟩,
         ⟨Val.dcons "isDeleted" (Val.bool false) Val.dnil⟩]) }
    [⟨Val.dcons "isDeleted" (Val.bool true) Val.dnil⟩,
     ⟨Val.dcons "isDeleted" (Val.bool false) Val.dnil⟩]
    [Val.int 3] (by decide) (by decide)).1

/-- C9: `create` issues the registration POST first; when the POST does not raise,
everything returned comes from the authenticated re-fetch: on fetch success the
freshly fetched record built from the ME response body — for every POST response
body, so never the POST body itself — and on fetch failure the fetch's error
propagates, no partial record being produced. -/
theorem create_returns_fresh_fetch
    (name email password : String) (postResp authResp : Response) (meBody : Dict)
    (hpost : ¬(400 ≤ postResp.status ∧ postResp.status < 600)) :
    (User.create name email password .null [] postResp authResp meBody).1
      = Request.post USER_URL (some
          [("name", .str name), ("username", .str email),
           ("password", .str password), ("emails", .str email),
           ("phoneNumbers", Val.ofList [])])
        :: (clientMe email password authResp meBody).1 ∧
    (User.create name email password .null [] postResp authResp meBody).2
      = (clientMe email password authResp meBody).2 ∧
    (200 ≤ authResp.status → authResp.status < 300 →
      (User.create name email password .null [] postResp authResp meBody).2
        = .ok (User.init meBody)) ∧
    (¬(200 ≤ authResp.status ∧ authResp.status < 300) →
      (User.create name email password .null [] postResp authResp meBody).2
        = .error .unauthorized) := by
  have hb : raisesHTTPError postResp.status = false := and_le_lt_eq_false hpost
  refine ⟨?_, ?_, ?_, ?_⟩
  · simp [User.create, hb, Val.truthy]
  · simp [User.create, hb]
  · intro h1 h2
    have ha : (200 ≤ authResp.status && authResp.status < 300) = true :=
      and_le_lt_eq_true h1 h2
    simp [User.create, hb, clientMe, ha]
  · intro hauth
    have ha : (200 ≤ authResp.status && authResp.status < 300) = false :=
      and_le_lt_eq_false hauth
    simp [User.create, hb, clientMe, ha]

/-- Witness for C9: a 201 registration POST whose body is a server-enriched record,
followed by a successful fetch: the result is the record fetched from ME, not the
POST body. -/
theorem create_returns_fresh_fetch_witness :
    (User.create "n" "e@x" "pw" .null []
        { status := 201, body := Val.dcons "id" (Val.int 1) Val.dnil }
        { status := 200, body := Val.dnil }
        [("id", Val.int 2), ("name", Val.str "n")]).2
      = .ok (User.init [("id", Val.int 2), ("name", Val.str "n")]) :=
  ((create_returns_fresh_fetch "n" "e@x" "pw"
      { status := 201, body := Val.dcons "id" (Val.int 1) Val.dnil }
      { status := 200, body := Val.dnil }
      [("id", Val.int 2), ("name", Val.str "n")]
      (by decide)).2.2.1 (by decide) (by decide))

end Anydo
